import Mathlib

/-!
Verification of `news_bias.py` (kaanaltan/News-Bias) against its
natural-language specification.

The scraper's pure logic is embedded shallowly:

* `get_agreeance_text` mirrors the threshold ladder of the Python function
  of the same name, with the ratio modelled as a rational number and the
  fall-through branch returning `none` (Python `None`).
* A table row is a `Row` whose fields are `Option`-valued: `none` models a
  field whose CSS selector fails, whose text is non-numeric, or whose
  secondary fetch fails — every condition that raises inside the row-level
  `try` block.
* `extract_row` replays the row-level `try`/`except` of `build_data`:
  `Except.error ()` marks an exception that escapes the handler (the
  handler formats `d['allsides_page']`, which raises `KeyError` when the
  failure happened before that key was assigned), `Except.ok none` a
  caught-and-logged skip, and `Except.ok (some rec)` an appended record.
* `build_data` replays the page loop, including the fact that the Python
  local `rows` is assigned only inside the page-level `try`: on a fetch
  failure the loop body runs on the previous page's rows, and on a
  first-page failure the variable is unbound (`NameError`), modelled as
  `Except.error ()`.
* `build_dataframe` mirrors the pandas export: a readable, non-empty
  record list yields the 8 renamed columns in fixed order; an empty list
  makes the column selection raise (caught, returning `pd.DataFrame({})`),
  and an unreadable store takes the same `except` path.
-/

namespace NewsBias

/-- Embeds `get_agreeance_text` (news_bias.py lines 75-100): the threshold
ladder mapping an agreeance ratio to a label, final `else` returning
`None`. -/
def get_agreeance_text (ratio : ℚ) : Option String :=
  if 3 < ratio then some "absolutely agrees"
  else if 2 < ratio ∧ ratio ≤ 3 then some "strongly agrees"
  else if 1.5 < ratio ∧ ratio ≤ 2 then some "agrees"
  else if 1 < ratio ∧ ratio ≤ 1.5 then some "somewhat agrees"
  else if ratio = 1 then some "neutral"
  else if 0.67 < ratio ∧ ratio < 1 then some "somewhat disagrees"
  else if 0.5 < ratio ∧ ratio ≤ 0.67 then some "disagrees"
  else if 0.33 < ratio ∧ ratio ≤ 0.5 then some "strongly disagrees"
  else if ratio ≤ 0.33 then some "absolutely disagrees"
  else none

/-- The spec's threshold table (§4.1) as literal data: condition/label
pairs in the order the table lists them. -/
def spec_ladder (r : ℚ) : List (Bool × String) :=
  [(decide (3 < r), "absolutely agrees"),
   (decide (2 < r ∧ r ≤ 3), "strongly agrees"),
   (decide (1.5 < r ∧ r ≤ 2), "agrees"),
   (decide (1 < r ∧ r ≤ 1.5), "somewhat agrees"),
   (decide (r = 1), "neutral"),
   (decide (0.67 < r ∧ r < 1), "somewhat disagrees"),
   (decide (0.5 < r ∧ r ≤ 0.67), "disagrees"),
   (decide (0.33 < r ∧ r ≤ 0.5), "strongly disagrees"),
   (decide (r ≤ 0.33), "absolutely disagrees")]

/-- Modelled from the spec (§4.1): the classifier the spec describes,
"evaluated top-down, first match wins" over the threshold table. -/
def classify_spec (r : ℚ) : Option String :=
  (List.find? (fun p => p.1) (spec_ladder r)).map Prod.snd

/-- The nine-label vocabulary of the classifier (spec §8). -/
def label_vocabulary : List String :=
  ["absolutely agrees", "strongly agrees", "agrees", "somewhat agrees",
   "neutral", "somewhat disagrees", "disagrees", "strongly disagrees",
   "absolutely disagrees"]

/-- A parsed table row (one `<tr>` of a ratings page), as `build_data`
reads it. Each field is `none` when the corresponding extraction step
raises in Python: a CSS selector matching nothing, non-numeric count text,
or (for `inner_fetch`) a failing secondary request / missing grid link. -/
structure Row where
  name : Option String
  allsides_href : Option String
  bias_href : Option String
  agree : Option Int
  disagree : Option Int
  inner_fetch : Option String
deriving DecidableEq, Repr

/-- One fully-populated scraped dictionary `d`, as appended by
`build_data` (news_bias.py lines 136-154). -/
structure OutletRecord where
  name : String
  allsides_page : String
  bias : String
  agree : Int
  disagree : Int
  agree_ratio : ℚ
  agreeance_text : Option String
  news_page : String
deriving DecidableEq, Repr

/-- Embeds Python `s.split('/')[-1]` (news_bias.py line 140): the suffix
of `s` after its last `/`. -/
def lastSegment (s : String) : String :=
  String.mk (lastSegmentAux s.toList [])
where
  lastSegmentAux : List Char → List Char → List Char
    | [], acc => acc.reverse
    | c :: cs, acc =>
        if c = '/' then lastSegmentAux cs [] else lastSegmentAux cs (c :: acc)

/-- Embeds the row-level `try`/`except` body of `build_data`
(news_bias.py lines 134-156). The steps run in source order; the first
failing step jumps to the handler, which formats `d['allsides_page']`:
if that key is not yet set (failure at the name or profile-link step) the
handler itself raises `KeyError`, modelled as `Except.error ()`. A caught
failure skips the row (`Except.ok none`); success appends the record. -/
def extract_row (row : Row) : Except Unit (Option OutletRecord) :=
  match row.name with
  | none => Except.error ()
  | some nm =>
    match row.allsides_href with
    | none => Except.error ()
    | some href =>
      let allsides_page := "https://www.allsides.com" ++ href
      match row.bias_href with
      | none => Except.ok none
      | some bhref =>
        let bias := lastSegment bhref
        match row.agree with
        | none => Except.ok none
        | some agree =>
          match row.disagree with
          | none => Except.ok none
          | some disagree =>
            if disagree = 0 then Except.ok none
            else
              let agree_ratio : ℚ := (agree : ℚ) / (disagree : ℚ)
              let agreeance_text := get_agreeance_text agree_ratio
              match row.inner_fetch with
              | none => Except.ok none
              | some news_page =>
                Except.ok (some ⟨nm, allsides_page, bias, agree, disagree,
                                 agree_ratio, agreeance_text, news_page⟩)

/-- The outcome of fetching and parsing one page URL in the page-level
`try` of `build_data` (lines 124-132): either the whole block raises
(request error or unparsable markup) or it yields the page's rows. -/
inductive PageFetch where
  | failure : PageFetch
  | success : List Row → PageFetch
deriving DecidableEq, Repr

/-- The inner `for row in tqdm(rows)` loop of `build_data`: extracts each
row in order, appending successes to `data`; an exception escaping the
row handler aborts the whole call. -/
def process_rows : List Row → List OutletRecord → Except Unit (List OutletRecord)
  | [], data => Except.ok data
  | r :: rest, data =>
    match extract_row r with
    | Except.error () => Except.error ()
    | Except.ok none => process_rows rest data
    | Except.ok (some rec) => process_rows rest (data ++ [rec])

/-- The page loop of `build_data` with its state: `data` (the accumulator)
and `rowsVar`, the Python local `rows`. `rows` is assigned only inside the
page-level `try`, so a fetch failure leaves it holding the previous page's
rows — and if no page has succeeded yet, using it raises `NameError`
(`Except.error ()`). -/
def build_data_loop : List PageFetch → Option (List Row) → List OutletRecord →
    Except Unit (List OutletRecord)
  | [], _, data => Except.ok data
  | p :: rest, rowsVar, data =>
    let rowsVar := match p with
      | PageFetch.failure => rowsVar
      | PageFetch.success rs => some rs
    match rowsVar with
    | none => Except.error ()
    | some rows =>
      match process_rows rows data with
      | Except.error () => Except.error ()
      | Except.ok data => build_data_loop rest (some rows) data

/-- Embeds `build_data` (news_bias.py lines 102-159): iterate the pages in
order, starting with `data = []` and the local `rows` unbound. -/
def build_data (pages : List PageFetch) : Except Unit (List OutletRecord) :=
  build_data_loop pages none []

/-- The records a page's rows contribute when extraction runs over them:
the successfully extracted rows, in encounter order. -/
def page_successes (rows : List Row) : List OutletRecord :=
  rows.filterMap (fun r =>
    match extract_row r with
    | Except.ok (some rec) => some rec
    | _ => none)

/-- A cell of the exported table, tagged with the value's shape. -/
inductive Cell where
  | str : String → Cell
  | int : Int → Cell
  | rat : ℚ → Cell
  | opt : Option String → Cell
deriving DecidableEq, Repr

/-- The tabular structure `build_dataframe` returns: a header (column
names in order) and data rows. -/
structure Table where
  columns : List String
  rows : List (List Cell)
deriving DecidableEq, Repr

/-- The 8 renamed columns selected by `build_dataframe`
(news_bias.py lines 205-207), in the order the source lists them. -/
def df_columns : List String :=
  ["Name", "News_Page", "Allsides_Page", "Media_Bias", "Agree_Count",
   "Disagree_Count", "Agreeance_Ratio", "Agreeance"]

/-- One exported table row: the record's fields in the column order of
`df_columns`. -/
def record_cells (r : OutletRecord) : List Cell :=
  [Cell.str r.name, Cell.str r.news_page, Cell.str r.allsides_page,
   Cell.str r.bias, Cell.int r.agree, Cell.int r.disagree,
   Cell.rat r.agree_ratio, Cell.opt r.agreeance_text]

/-- Embeds `build_dataframe` (news_bias.py lines 186-212). Input `none`
models an unreadable JSON store (`pd.read_json` raises, caught, returning
`pd.DataFrame({})` — no columns). Input `some []` models a readable store
holding the empty list: `pd.read_json` yields a zero-column frame, so the
8-column selection `df[[...]]` raises `KeyError`, caught the same way. A
non-empty list yields the 8 renamed columns over the records in order. -/
def build_dataframe (input : Option (List OutletRecord)) : Table :=
  match input with
  | none => ⟨[], []⟩
  | some [] => ⟨[], []⟩
  | some records => ⟨df_columns, records.map record_cells⟩

/-- Fixture: a table row whose every extraction step succeeds
(agree 4, disagree 2, ratio 2, label "agrees"). -/
def mkRow (nm : String) : Row :=
  ⟨some nm, some ("/news-source/" ++ nm), some "/media-bias/left", some 4, some 2,
   some ("http://example.com/" ++ nm)⟩

/-- Fixture: a first page contributing 5 successful rows. -/
def pageOneRows : List Row :=
  [mkRow "a1", mkRow "a2", mkRow "a3", mkRow "a4", mkRow "a5"]

/-- Fixture: a third page contributing 4 successful rows. -/
def pageThreeRows : List Row :=
  [mkRow "c1", mkRow "c2", mkRow "c3", mkRow "c4"]

/-- Fixture: a row whose `.source-title` selector fails (missing name);
this failure occurs before `d['allsides_page']` is assigned, so the
row-level `except` handler itself raises. -/
def rowMissingName : Row :=
  ⟨none, some "/news-source/x", some "/media-bias/left", some 4, some 2,
   some "http://example.com/x"⟩

/-- Fixture: spec §8 end-to-end Row A (agree 12, disagree 4, bias left). -/
def rowA : Row :=
  ⟨some "Outlet A", some "/news-source/outlet-a", some "/media-bias/left", some 12, some 4,
   some "http://outleta.com"⟩

/-- Fixture: spec §8 end-to-end Row B (agree 3, disagree 9, bias right). -/
def rowB : Row :=
  ⟨some "Outlet B", some "/news-source/outlet-b", some "/media-bias/right", some 3, some 9,
   some "http://outletb.com"⟩

/-- Fixture: a row whose disagree count is 0. -/
def rowZeroDisagree : Row :=
  ⟨some "Z", some "/news-source/z", some "/media-bias/center", some 7, some 0,
   some "http://example.com/z"⟩

/-- Fixture: the record `extract_row (mkRow "w")` produces, with its
fields written exactly as the extractor computes them. -/
def recW : OutletRecord :=
  ⟨"w", "https://www.allsides.com" ++ "/news-source/w", lastSegment "/media-bias/left", 4, 2,
   ((4 : Int) : ℚ) / ((2 : Int) : ℚ),
   get_agreeance_text (((4 : Int) : ℚ) / ((2 : Int) : ℚ)), "http://example.com/w"⟩

/-- Helper: the code's ladder agrees with the spec's first-match table on
every rational ratio. -/
theorem get_agreeance_text_eq_classify_spec (r : ℚ) :
    get_agreeance_text r = classify_spec r := by
  unfold get_agreeance_text classify_spec spec_ladder
  split_ifs with h1 h2 h3 h4 h5 h6 h7 h8 h9
  · simp only [decide_eq_true h1]; rfl
  · simp only [decide_eq_false h1, decide_eq_true h2]; rfl
  · simp only [decide_eq_false h1, decide_eq_false h2, decide_eq_true h3]; rfl
  · simp only [decide_eq_false h1, decide_eq_false h2, decide_eq_false h3,
      decide_eq_true h4]; rfl
  · simp only [decide_eq_false h1, decide_eq_false h2, decide_eq_false h3,
      decide_eq_false h4, decide_eq_true h5]; rfl
  · simp only [decide_eq_false h1, decide_eq_false h2, decide_eq_false h3,
      decide_eq_false h4, decide_eq_false h5, decide_eq_true h6]; rfl
  · simp only [decide_eq_false h1, decide_eq_false h2, decide_eq_false h3,
      decide_eq_false h4, decide_eq_false h5, decide_eq_false h6,
      decide_eq_true h7]; rfl
  · simp only [decide_eq_false h1, decide_eq_false h2, decide_eq_false h3,
      decide_eq_false h4, decide_eq_false h5, decide_eq_false h6,
      decide_eq_false h7, decide_eq_true h8]; rfl
  · simp only [decide_eq_false h1, decide_eq_false h2, decide_eq_false h3,
      decide_eq_false h4, decide_eq_false h5, decide_eq_false h6,
      decide_eq_false h7, decide_eq_false h8, decide_eq_true h9]; rfl
  · exfalso
    push_neg at h1 h2 h3 h4 h5 h6 h7 h8 h9
    have k8 := h8 h9
    have k7 := h7 k8
    have k6 := h6 k7
    have k5 : 1 < r := lt_of_le_of_ne k6 (Ne.symm h5)
    have k4 := h4 k5
    have k3 := h3 k4
    have k2 := h2 k3
    linarith

/-- Helper: the ladder never falls through to the final `else None`, and
whatever it returns is one of the nine vocabulary labels. -/
theorem get_agreeance_text_mem_vocabulary (r : ℚ) :
    get_agreeance_text r ∈ label_vocabulary.map some := by
  unfold get_agreeance_text
  split_ifs with h1 h2 h3 h4 h5 h6 h7 h8 h9
  case _ => simp [label_vocabulary]
  case _ => simp [label_vocabulary]
  case _ => simp [label_vocabulary]
  case _ => simp [label_vocabulary]
  case _ => simp [label_vocabulary]
  case _ => simp [label_vocabulary]
  case _ => simp [label_vocabulary]
  case _ => simp [label_vocabulary]
  case _ => simp [label_vocabulary]
  · exfalso
    push_neg at h1 h2 h3 h4 h5 h6 h7 h8 h9
    have k8 := h8 h9
    have k7 := h7 k8
    have k6 := h6 k7
    have k5 : 1 < r := lt_of_le_of_ne k6 (Ne.symm h5)
    have k4 := h4 k5
    have k3 := h3 k4
    have k2 := h2 k3
    linarith

/-- C1: for every ratio > 0 the classifier `get_agreeance_text` returns
exactly the label given by the spec's §4.1 threshold ladder evaluated
top-down with first match winning, and every boundary value among
0.33, 0.5, 0.67, 1, 1.5, 2 and 3 maps to the lower-adjacent bucket. -/
theorem classifier_matches_spec_ladder :
    (∀ r : ℚ, 0 < r → get_agreeance_text r = classify_spec r) ∧
    get_agreeance_text 1.5 = some "somewhat agrees" ∧
    get_agreeance_text 2 = some "agrees" ∧
    get_agreeance_text 3 = some "strongly agrees" ∧
    get_agreeance_text 0.33 = some "absolutely disagrees" ∧
    get_agreeance_text 0.5 = some "strongly disagrees" ∧
    get_agreeance_text 0.67 = some "disagrees" ∧
    get_agreeance_text 1 = some "neutral" := by
  refine ⟨fun r _ => get_agreeance_text_eq_classify_spec r, ?_, ?_, ?_, ?_, ?_, ?_, ?_⟩
  all_goals norm_num [get_agreeance_text]

/-- C1 witness: the ladder correspondence instantiated at ratio 2. -/
theorem classifier_matches_spec_ladder_witness :
    (0 : ℚ) < 2 ∧ get_agreeance_text 2 = classify_spec 2 :=
  ⟨by norm_num, classifier_matches_spec_ladder.1 2 (by norm_num)⟩

/-- C8: for every ratio > 0 the classifier returns exactly one label from
the fixed nine-label vocabulary (the fall-through `None` branch is
unreachable); being a pure function of its argument, it is total and
deterministic under this precondition. -/
theorem classifier_total_on_positive (r : ℚ) (hr : 0 < r) :
    get_agreeance_text r ∈ label_vocabulary.map some :=
  get_agreeance_text_mem_vocabulary r

/-- C8 witness: instantiated at ratio 2. -/
theorem classifier_total_on_positive_witness :
    (0 : ℚ) < 2 ∧ get_agreeance_text 2 ∈ label_vocabulary.map some :=
  ⟨by norm_num, classifier_total_on_positive 2 (by norm_num)⟩

/-- C10: every ratio ≤ 0, negative values included, falls into the code's
final `ratio <= 0.33` branch and is classified "absolutely disagrees"
rather than failing or returning no label. -/
theorem classifier_nonpositive_absolutely_disagrees (r : ℚ) (hr : r ≤ 0) :
    get_agreeance_text r = some "absolutely disagrees" := by
  unfold get_agreeance_text
  split_ifs with h1 h2 h3 h4 h5 h6 h7 h8 h9
  · exfalso; linarith
  · exfalso; linarith [h2.1]
  · exfalso; linarith [h3.1]
  · exfalso; linarith [h4.1]
  · exfalso; subst h5; norm_num at hr
  · exfalso; linarith [h6.1]
  · exfalso; linarith [h7.1]
  · exfalso; linarith [h8.1]
  · rfl
  · exfalso; exact h9 (by linarith)

/-- C10 witness: instantiated at ratio -1. -/
theorem classifier_nonpositive_absolutely_disagrees_witness :
    (-1 : ℚ) ≤ 0 ∧ get_agreeance_text (-1) = some "absolutely disagrees" :=
  ⟨by norm_num, classifier_nonpositive_absolutely_disagrees (-1) (by norm_num)⟩

/-- Helper: when no row of `rows` escapes the row-level handler,
`process_rows` appends exactly the successful extractions, in encounter
order. -/
theorem process_rows_append (rows : List Row) (data : List OutletRecord)
    (h : ∀ r ∈ rows, extract_row r ≠ Except.error ()) :
    process_rows rows data = Except.ok (data ++ page_successes rows) := by
  induction rows generalizing data with
  | nil => simp [process_rows, page_successes]
  | cons r rest ih =>
    have hr : extract_row r ≠ Except.error () := h r (by simp)
    have hrest : ∀ x ∈ rest, extract_row x ≠ Except.error () := fun x hx => h x (by simp [hx])
    cases he : extract_row r with
    | error e => cases e; exact absurd he hr
    | ok o =>
      cases o with
      | none =>
        simp [process_rows, he, page_successes, List.filterMap_cons, ih _ hrest]
      | some rec =>
        simp [process_rows, he, page_successes, List.filterMap_cons, ih _ hrest]

/-- Helper: over pages that all fetch successfully and whose rows never
escape the row handler, the page loop appends each page's successes in
page order. -/
theorem build_data_loop_ok (pageRows : List (List Row)) (rowsVar : Option (List Row))
    (data : List OutletRecord)
    (h : ∀ rs ∈ pageRows, ∀ r ∈ rs, extract_row r ≠ Except.error ()) :
    build_data_loop (pageRows.map PageFetch.success) rowsVar data =
      Except.ok (data ++ (pageRows.map page_successes).flatten) := by
  induction pageRows generalizing rowsVar data with
  | nil => simp [build_data_loop, List.flatten]
  | cons rs rest ih =>
    have h1 : ∀ r ∈ rs, extract_row r ≠ Except.error () := h rs (by simp)
    have h2 : ∀ x ∈ rest, ∀ r ∈ x, extract_row r ≠ Except.error () :=
      fun x hx => h x (by simp [hx])
    simp only [List.map_cons, build_data_loop, process_rows_append rs data h1]
    rw [ih (some rs) (data ++ page_successes rs) h2]
    simp [List.flatten]

/-- Helper: a record produced by a successful row extraction has
`agree_ratio` computed as agree over disagree with a non-zero
denominator, and `agreeance_text` equal to the classifier of that
ratio. -/
theorem extract_row_invariant (row : Row) (rec : OutletRecord)
    (h : extract_row row = Except.ok (some rec)) :
    rec.agree_ratio = (rec.agree : ℚ) / (rec.disagree : ℚ) ∧
      rec.agreeance_text = get_agreeance_text rec.agree_ratio ∧ rec.disagree ≠ 0 := by
  simp only [extract_row] at h
  repeat' split at h
  all_goals cases h
  exact ⟨rfl, rfl, by assumption⟩

/-- Helper: the row loop preserves the record invariant of the
accumulator. -/
theorem process_rows_invariant (rows : List Row) (acc data : List OutletRecord)
    (hacc : ∀ rec ∈ acc, rec.agree_ratio = (rec.agree : ℚ) / (rec.disagree : ℚ) ∧
      rec.agreeance_text = get_agreeance_text rec.agree_ratio ∧ rec.disagree ≠ 0)
    (h : process_rows rows acc = Except.ok data) :
    ∀ rec ∈ data, rec.agree_ratio = (rec.agree : ℚ) / (rec.disagree : ℚ) ∧
      rec.agreeance_text = get_agreeance_text rec.agree_ratio ∧ rec.disagree ≠ 0 := by
  induction rows generalizing acc with
  | nil =>
    simp only [process_rows] at h
    injection h with h
    subst h
    exact hacc
  | cons r rest ih =>
    simp only [process_rows] at h
    cases he : extract_row r with
    | error e =>
      cases e
      rw [he] at h
      exact absurd h (by simp)
    | ok o =>
      cases o with
      | none =>
        rw [he] at h
        exact ih acc hacc h
      | some c =>
        rw [he] at h
        refine ih (acc ++ [c]) ?_ h
        intro x hx
        rcases List.mem_append.mp hx with hx | hx
        · exact hacc x hx
        · rw [List.mem_singleton] at hx
          subst hx
          exact extract_row_invariant r x he

/-- Helper: the page loop preserves the record invariant of the
accumulator, whatever mix of fetch failures and successes it sees. -/
theorem build_data_loop_invariant (pages : List PageFetch) (rowsVar : Option (List Row))
    (acc data : List OutletRecord)
    (hacc : ∀ rec ∈ acc, rec.agree_ratio = (rec.agree : ℚ) / (rec.disagree : ℚ) ∧
      rec.agreeance_text = get_agreeance_text rec.agree_ratio ∧ rec.disagree ≠ 0)
    (h : build_data_loop pages rowsVar acc = Except.ok data) :
    ∀ rec ∈ data, rec.agree_ratio = (rec.agree : ℚ) / (rec.disagree : ℚ) ∧
      rec.agreeance_text = get_agreeance_text rec.agree_ratio ∧ rec.disagree ≠ 0 := by
  induction pages generalizing rowsVar acc with
  | nil =>
    simp only [build_data_loop] at h
    injection h with h
    subst h
    exact hacc
  | cons p rest ih =>
    cases p with
    | failure =>
      cases rowsVar with
      | none => simp [build_data_loop] at h
      | some rows =>
        simp only [build_data_loop] at h
        cases hp : process_rows rows acc with
        | error e =>
          cases e
          rw [hp] at h
          simp at h
        | ok acc2 =>
          rw [hp] at h
          exact ih (some rows) acc2 (process_rows_invariant rows acc acc2 hacc hp) h
    | success rs =>
      simp only [build_data_loop] at h
      cases hp : process_rows rs acc with
      | error e =>
        cases e
        rw [hp] at h
        simp at h
      | ok acc2 =>
        rw [hp] at h
        exact ih (some rs) acc2 (process_rows_invariant rs acc acc2 hacc hp) h

/-- C2: evaluation of `build_data` at the claim's 3-page scenario — page
2's fetch fails, pages 1 and 3 contribute 5 and 4 successful rows. The
claim (and the code's evident intent) demands 9 records; because `rows`
is assigned only inside the page-level `try`, the failed page re-runs the
previous page's rows and the run yields 14 records. -/
theorem page_failure_reprocesses_previous_rows :
    (page_successes pageOneRows).length = 5 ∧
    (page_successes pageThreeRows).length = 4 ∧
    Except.map List.length
      (build_data [PageFetch.success pageOneRows, PageFetch.failure,
        PageFetch.success pageThreeRows]) = Except.ok 14 ∧
    (14 : ℕ) ≠ 9 :=
  ⟨rfl, rfl, rfl, by decide⟩

/-- C3: evaluation of `build_data` at a failing input — when the very
first page's fetch fails, the local `rows` was never assigned, so the
loop body raises `NameError` out of `build_data` instead of continuing
with an empty result. -/
theorem first_page_fetch_failure_crashes :
    build_data [PageFetch.failure] = Except.error () := rfl

/-- C4 counterexample: a single successfully fetched page whose second
row is missing its name contributes exactly 1 successful row, yet
`build_data` does not return a 1-element sequence — the row-level
`except` handler raises `KeyError` on `d['allsides_page']` and the run
aborts. -/
theorem row_crash_breaks_concatenation :
    (page_successes [mkRow "ok", rowMissingName]).length = 1 ∧
    build_data [PageFetch.success [mkRow "ok", rowMissingName]] = Except.error () :=
  ⟨rfl, rfl⟩

/-- C4 (amended): for every ordered sequence of pages that all fetch
successfully and whose failing rows all fail after their profile link is
extracted (so no row escapes the row-level handler), `build_data` returns
exactly the concatenation of each page's successful records, in page
order and, within a page, in row encounter order. -/
theorem pipeline_concatenates_page_successes (pageRows : List (List Row))
    (h : ∀ rs ∈ pageRows, ∀ r ∈ rs, extract_row r ≠ Except.error ()) :
    build_data (pageRows.map PageFetch.success) =
      Except.ok ((pageRows.map page_successes).flatten) := by
  simpa [build_data] using build_data_loop_ok pageRows none [] h

/-- C4 witness: the concatenation property instantiated at a concrete
one-page, one-row run. -/
theorem pipeline_concatenates_page_successes_witness :
    build_data ([[mkRow "w"]].map PageFetch.success) =
      Except.ok (([[mkRow "w"]].map page_successes).flatten) :=
  pipeline_concatenates_page_successes [[mkRow "w"]] (by
    intro rs hrs r hr
    simp only [List.mem_singleton] at hrs
    subst hrs
    simp only [List.mem_singleton] at hr
    subst hr
    intro hcontra
    exact Except.noConfusion hcontra)

/-- C5: a row whose disagree count is 0 never yields a record: extraction
fails on the divide-by-zero before any ratio is computed (the failure is
either the caught skip, or — when an earlier field was also missing — the
handler's own crash), so no infinite or NaN `agree_ratio` is ever
produced. -/
theorem zero_disagree_no_record (row : Row) (h : row.disagree = some 0) :
    extract_row row = Except.error () ∨ extract_row row = Except.ok none := by
  obtain ⟨nm, ah, bh, ag, dg, nf⟩ := row
  change dg = some 0 at h
  subst h
  cases nm <;> cases ah <;> cases bh <;> cases ag <;> simp [extract_row]

/-- C5 witness: instantiated at a concrete row with agree 7, disagree 0. -/
theorem zero_disagree_no_record_witness :
    rowZeroDisagree.disagree = some 0 ∧
      (extract_row rowZeroDisagree = Except.error () ∨
        extract_row rowZeroDisagree = Except.ok none) :=
  ⟨rfl, zero_disagree_no_record rowZeroDisagree rfl⟩

/-- C6 counterexample: a readable record store holding the empty list
takes the `except` path of `build_dataframe` (zero-column selection
raises `KeyError`) and yields `pd.DataFrame({})` — an empty table with NO
columns, not the 8-column header the claim demands. -/
theorem empty_store_table_headerless :
    build_dataframe (some []) = Table.mk [] [] ∧
    (build_dataframe (some [])).columns ≠ df_columns :=
  ⟨rfl, by decide⟩

/-- C6 (amended): for every non-empty record sequence the table built by
`build_dataframe` has exactly the 8 renamed columns Name, News_Page,
Allsides_Page, Media_Bias, Agree_Count, Disagree_Count, Agreeance_Ratio,
Agreeance in that fixed order, one row per record in order; an empty or
unreadable input returns, without failing, an empty table with zero rows
and zero columns (no header). -/
theorem dataframe_eight_columns (records : List OutletRecord) (h : records ≠ []) :
    (build_dataframe (some records)).columns = df_columns ∧
    (build_dataframe (some records)).rows = records.map record_cells ∧
    df_columns.length = 8 ∧
    build_dataframe none = Table.mk [] [] ∧
    build_dataframe (some []) = Table.mk [] [] := by
  obtain ⟨r, rest, rfl⟩ := List.exists_cons_of_ne_nil h
  exact ⟨rfl, rfl, rfl, rfl, rfl⟩

/-- C6 witness: instantiated at a one-record input. -/
theorem dataframe_eight_columns_witness :
    ([recW] : List OutletRecord) ≠ [] ∧
      ((build_dataframe (some [recW])).columns = df_columns ∧
        (build_dataframe (some [recW])).rows = [recW].map record_cells ∧
        df_columns.length = 8 ∧
        build_dataframe none = Table.mk [] [] ∧
        build_dataframe (some []) = Table.mk [] []) :=
  ⟨List.cons_ne_nil recW [], dataframe_eight_columns [recW] (List.cons_ne_nil recW [])⟩

/-- C7: every record in a collection `build_data` returns is fully
populated by construction (an `OutletRecord` exists only with all eight
fields, and a row failing at any step — the secondary fetch included —
contributes no record), its `agree_ratio` equals agree over disagree as
computed at extraction time with non-zero disagree, and its
`agreeance_text` is exactly the classifier applied to `agree_ratio`. -/
theorem pipeline_records_invariant (pages : List PageFetch) (data : List OutletRecord)
    (rec : OutletRecord) (h : build_data pages = Except.ok data) (hrec : rec ∈ data) :
    rec.agree_ratio = (rec.agree : ℚ) / (rec.disagree : ℚ) ∧
      rec.agreeance_text = get_agreeance_text rec.agree_ratio ∧ rec.disagree ≠ 0 :=
  build_data_loop_invariant pages none [] data (by simp) h rec hrec

/-- C7 witness: instantiated at a concrete one-page run producing the
record `recW`. -/
theorem pipeline_records_invariant_witness :
    recW.agree_ratio = (recW.agree : ℚ) / (recW.disagree : ℚ) ∧
      recW.agreeance_text = get_agreeance_text recW.agree_ratio ∧ recW.disagree ≠ 0 :=
  pipeline_records_invariant [PageFetch.success [mkRow "w"]] [recW] recW rfl (by simp)

/-- C9 counterexample: Row B (agree 3, disagree 9) extracts to
`agree_ratio` 1/3, and since 1/3 > 0.33 the classifier returns
"strongly disagrees" — not the "absolutely disagrees" the claim states. -/
theorem rowB_not_absolutely_disagrees :
    Except.map (Option.map fun rec => (rec.agree_ratio, rec.agreeance_text)) (extract_row rowB) =
      Except.ok (some ((1/3 : ℚ), some "strongly disagrees")) ∧
    get_agreeance_text (1/3) ≠ some "absolutely disagrees" := by
  constructor
  · simp [extract_row, rowB, Except.map, Option.map, get_agreeance_text]
    norm_num
  · norm_num [get_agreeance_text]
    decide

/-- C9 (amended): Row A (agree 12, disagree 4) extracts to agree_ratio 3
classified "strongly agrees"; Row B (agree 3, disagree 9) extracts to
agree_ratio 1/3 (0.333…), which lies above the 0.33 boundary and is
classified "strongly disagrees". -/
theorem end_to_end_rows_classification :
    Except.map (Option.map fun rec => (rec.agree_ratio, rec.agreeance_text)) (extract_row rowA) =
      Except.ok (some ((3 : ℚ), some "strongly agrees")) ∧
    Except.map (Option.map fun rec => (rec.agree_ratio, rec.agreeance_text)) (extract_row rowB) =
      Except.ok (some ((1/3 : ℚ), some "strongly disagrees")) := by
  constructor
  · simp [extract_row, rowA, Except.map, Option.map, get_agreeance_text]
    norm_num
  · simp [extract_row, rowB, Except.map, Option.map, get_agreeance_text]
    norm_num

end NewsBias
